import Mathlib

/-!
Shallow embedding of the frame synchronization and presentation engine of
`src/src/20_rendering_and_presentation.rs` (a Rust/vulkanalia Vulkan
tutorial program), together with theorems checking the natural-language
specification against it.

Vulkan enumeration values are modelled as wrappers around their raw
integer values (as in the `vulkanalia` crate, where they are newtypes over
`i32`); device handles are modelled as natural numbers.  Fallible Vulkan
calls are modelled by an oracle record giving each call's outcome, and the
`render` routine is embedded as a pure function from the app state and the
oracle to a result, an updated state, and a trace of the device commands
it issued, in order.
-/

namespace VkTut

/-- `vk::Format`: a raw Vulkan format value (`VK_FORMAT_B8G8R8A8_SRGB = 50`). -/
structure Format where
  val : Int
deriving DecidableEq, Repr

/-- `vk::Format::B8G8R8A8_SRGB`. -/
def Format.B8G8R8A8_SRGB : Format := ⟨50⟩

/-- `vk::ColorSpaceKHR`: raw Vulkan color-space value (`SRGB_NONLINEAR = 0`). -/
structure ColorSpaceKHR where
  val : Int
deriving DecidableEq, Repr

/-- `vk::ColorSpaceKHR::SRGB_NONLINEAR`. -/
def ColorSpaceKHR.SRGB_NONLINEAR : ColorSpaceKHR := ⟨0⟩

/-- `vk::PresentModeKHR`: raw Vulkan present-mode value
(`IMMEDIATE = 0`, `MAILBOX = 1`, `FIFO = 2`, `FIFO_RELAXED = 3`). -/
structure PresentModeKHR where
  val : Int
deriving DecidableEq, Repr

/-- `vk::PresentModeKHR::MAILBOX`. -/
def PresentModeKHR.MAILBOX : PresentModeKHR := ⟨1⟩

/-- `vk::PresentModeKHR::FIFO`. -/
def PresentModeKHR.FIFO : PresentModeKHR := ⟨2⟩

/-- `vk::SurfaceFormatKHR`: a pixel format together with a color space. -/
structure SurfaceFormatKHR where
  format : Format
  color_space : ColorSpaceKHR
deriving DecidableEq, Repr

/-- `vk::Extent2D`: a width/height pair of `u32` values, modelled as `Nat`
(all values produced by the embedded code stay below `2 ^ 32` when the
inputs do, since the code only selects among or clamps its inputs). -/
structure Extent2D where
  width : Nat
  height : Nat
deriving DecidableEq, Repr

/-- The `u32::MAX` sentinel (`0xFFFFFFFF`). -/
def U32_MAX : Nat := 4294967295

/-- The fields of `vk::SurfaceCapabilitiesKHR` the embedded code reads. -/
structure SurfaceCapabilitiesKHR where
  min_image_count : Nat
  max_image_count : Nat
  current_extent : Extent2D
  min_image_extent : Extent2D
  max_image_extent : Extent2D
deriving DecidableEq, Repr

/-- `SwapchainSupport` (source lines 327–335): capabilities, formats and
present modes queried for the chosen physical device. -/
structure SwapchainSupport where
  capabilities : SurfaceCapabilitiesKHR
  formats : List SurfaceFormatKHR
  present_modes : List PresentModeKHR
deriving DecidableEq, Repr

/-- `QueueFamilyIndices` (source lines 283–289): the graphics-capable and
present-capable queue-family indices computed by `QueueFamilyIndices::get`. -/
structure QueueFamilyIndices where
  graphics : Nat
  present : Nat
deriving DecidableEq, Repr

/-- `get_swapchain_surface_format` (source lines 431–441): the first
supported format equal to `{B8G8R8A8_SRGB, SRGB_NONLINEAR}` if any,
otherwise `formats[0]`.  The Rust indexes `formats[0]` unconditionally
(panicking on an empty list, a case callers rule out); the embedding
returns a default on the empty list. -/
def get_swapchain_surface_format (formats : List SurfaceFormatKHR) : SurfaceFormatKHR :=
  match formats.find? (fun f =>
      decide (f.format = Format.B8G8R8A8_SRGB ∧
        f.color_space = ColorSpaceKHR.SRGB_NONLINEAR)) with
  | some f => f
  | none => formats.headD ⟨⟨0⟩, ⟨0⟩⟩

/-- `get_swapchain_present_mode` (source lines 446–452): `MAILBOX` if it is
among the supported modes, otherwise `FIFO`. -/
def get_swapchain_present_mode (present_modes : List PresentModeKHR) : PresentModeKHR :=
  match present_modes.find? (fun m => decide (m = PresentModeKHR.MAILBOX)) with
  | some m => m
  | none => PresentModeKHR.FIFO

/-- Rust `u32::clamp(self, min, max)`: `min` if below, `max` if above,
otherwise the value itself (Rust asserts `min ≤ max`; the embedded calls
always satisfy it). -/
def clampU32 (x lo hi : Nat) : Nat :=
  if x < lo then lo else if x > hi then hi else x

/-- `get_swapchain_extent` (source lines 457–474): the surface's
`current_extent` verbatim unless its WIDTH is the `u32::MAX` sentinel, in
which case the window's inner size is clamped componentwise into the
supported extent range. -/
def get_swapchain_extent (window_inner_size : Extent2D)
    (capabilities : SurfaceCapabilitiesKHR) : Extent2D :=
  if capabilities.current_extent.width ≠ U32_MAX then
    capabilities.current_extent
  else
    ⟨clampU32 window_inner_size.width
        capabilities.min_image_extent.width capabilities.max_image_extent.width,
      clampU32 window_inner_size.height
        capabilities.min_image_extent.height capabilities.max_image_extent.height⟩

/-- `vk::SharingMode`. -/
inductive SharingMode where
  | EXCLUSIVE
  | CONCURRENT
deriving DecidableEq, Repr

/-- The fields of `vk::SwapchainCreateInfoKHR` that `create_swapchain`
computes (source lines 666–722), as far as they depend on its inputs. -/
structure SwapchainCreateInfoModel where
  min_image_count : Nat
  image_format : Format
  image_color_space : ColorSpaceKHR
  image_extent : Extent2D
  image_sharing_mode : SharingMode
  queue_family_indices : List Nat
  present_mode : PresentModeKHR
deriving DecidableEq, Repr

/-- The pure configuration computation of `create_swapchain` (source lines
656–726): chosen format/present mode/extent, the requested image count
(`min_image_count + 1`, clamped down to `max_image_count` when that is
nonzero and exceeded), and the sharing mode (concurrent with both family
indices listed when the graphics and present families differ, exclusive
with no indices otherwise). -/
def create_swapchain_info (indices : QueueFamilyIndices) (support : SwapchainSupport)
    (window_inner_size : Extent2D) : SwapchainCreateInfoModel :=
  let surface_format := get_swapchain_surface_format support.formats
  let present_mode := get_swapchain_present_mode support.present_modes
  let extent := get_swapchain_extent window_inner_size support.capabilities
  let image_count := support.capabilities.min_image_count + 1
  let image_count :=
    if support.capabilities.max_image_count ≠ 0 ∧
        image_count > support.capabilities.max_image_count then
      support.capabilities.max_image_count
    else
      image_count
  let qfi_sharing :=
    if indices.graphics ≠ indices.present then
      ([indices.graphics, indices.present], SharingMode.CONCURRENT)
    else
      ([], SharingMode.EXCLUSIVE)
  { min_image_count := image_count
    image_format := surface_format.format
    image_color_space := surface_format.color_space
    image_extent := extent
    image_sharing_mode := qfi_sharing.2
    queue_family_indices := qfi_sharing.1
    present_mode := present_mode }

/-- `MAX_FRAMES_IN_FLIGHT` (source line 45): the number of frames that may
be processed concurrently. -/
def MAX_FRAMES_IN_FLIGHT : Nat := 2

/-- A Vulkan queue handle as returned by `Device::get_device_queue`: it is
determined by the queue-family index and the queue index within that
family, and distinct family/index pairs name distinct queues. -/
structure Queue where
  family : Nat
  index : Nat
deriving DecidableEq, Repr

/-- `Device::get_device_queue(family, index)`. -/
def get_device_queue (family : Nat) (index : Nat) : Queue := ⟨family, index⟩

/-- The queue-handle retrieval at the end of `create_logical_device`
(source lines 649–650): `data.graphics_queue` and `data.present_queue`
are BOTH retrieved with `indices.graphics` — the present-capable family
index computed by `QueueFamilyIndices::get` is not consulted here. -/
def create_logical_device_queues (indices : QueueFamilyIndices) : Queue × Queue :=
  (get_device_queue indices.graphics 0, get_device_queue indices.graphics 0)

/-- A fence object as created by `Device::create_fence`, remembering
whether the `vk::FenceCreateInfo` carried the `SIGNALED` flag. -/
structure FenceObj where
  handle : Nat
  createdSignaled : Bool
deriving DecidableEq, Repr

/-- The synchronization objects owned by `AppData` after
`create_sync_objects`. -/
structure SyncData where
  image_available_semaphores : List Nat
  render_finished_semaphores : List Nat
  in_flight_fences : List FenceObj
  images_in_flight : List (Option Nat)
deriving DecidableEq, Repr

/-- The creation loop of `create_sync_objects` (source lines 1122–1130):
each iteration creates one `image_available` semaphore, one
`render_finished` semaphore, and one fence whose create info has the
`SIGNALED` flag set.  `h` is the next fresh device handle. -/
def syncObjectsLoop : Nat → Nat → List Nat × List Nat × List FenceObj
  | 0, _ => ([], [], [])
  | n + 1, h =>
    let rest := syncObjectsLoop n (h + 3)
    (h :: rest.1, (h + 1) :: rest.2.1, ⟨h + 2, true⟩ :: rest.2.2)

/-- `create_sync_objects` (source lines 1117–1139): runs the creation loop
`MAX_FRAMES_IN_FLIGHT` times and initializes `images_in_flight` with one
null-fence (`none`) entry per swapchain image. -/
def create_sync_objects (swapchain_image_count : Nat) : SyncData :=
  let created := syncObjectsLoop MAX_FRAMES_IN_FLIGHT 1
  { image_available_semaphores := created.1
    render_finished_semaphores := created.2.1
    in_flight_fences := created.2.2
    images_in_flight := (List.replicate swapchain_image_count ()).map (fun _ => none) }

/-- The Vulkan error codes relevant to `App::render`.  In `vulkanalia`,
`ERROR_OUT_OF_DATE_KHR` is an error code, so `?` on
`acquire_next_image_khr` or `queue_present_khr` propagates it. -/
inductive VkErrorCode where
  | outOfDateKhr
  | deviceLost
  | other (code : Int)
deriving DecidableEq, Repr

/-- The Vulkan success codes relevant to `App::render`.  `SUBOPTIMAL_KHR`
is a success code, so `?` lets the frame proceed when it is returned. -/
inductive VkSuccessCode where
  | success
  | suboptimalKhr
deriving DecidableEq, Repr

instance {ε α : Type} [DecidableEq ε] [DecidableEq α] : DecidableEq (Except ε α) := fun x y =>
  match x, y with
  | .ok a, .ok b => if h : a = b then .isTrue (by simp [h]) else .isFalse (by simp [h])
  | .ok _, .error _ => .isFalse (by simp)
  | .error _, .ok _ => .isFalse (by simp)
  | .error e, .error f => if h : e = f then .isTrue (by simp [h]) else .isFalse (by simp [h])

/-- The fields of `App`/`AppData` that `App::render` reads or writes.
Fences and semaphores are device handles (`Nat`); an entry of
`images_in_flight` is `none` for `vk::Fence::null()`. -/
structure RenderData where
  frame : Nat
  in_flight_fences : List Nat
  image_available_semaphores : List Nat
  render_finished_semaphores : List Nat
  images_in_flight : List (Option Nat)
  command_buffers : List Nat
  swapchain : Nat
  graphics_queue : Nat
  present_queue : Nat
deriving DecidableEq, Repr

/-- The outcomes the device reports for the fallible calls `App::render`
makes, one field per call site, in source order. -/
structure RenderOracle where
  wait_slot_fence : Except VkErrorCode Unit
  acquire : Except VkErrorCode (Nat × VkSuccessCode)
  wait_image_fence : Except VkErrorCode Unit
  reset_fence : Except VkErrorCode Unit
  submit : Except VkErrorCode Unit
  present : Except VkErrorCode VkSuccessCode
deriving DecidableEq, Repr

/-- One device command issued by `App::render`, with the argument handles
the source passes. -/
inductive Action where
  | waitFences (fences : List Nat)
  | acquireNextImage (swapchain : Nat) (semaphore : Nat)
  | resetFences (fences : List Nat)
  | queueSubmit (queue : Nat) (wait_semaphores : List Nat) (command_buffers : List Nat)
      (signal_semaphores : List Nat) (fence : Nat)
  | queuePresent (queue : Nat) (wait_semaphores : List Nat) (swapchains : List Nat)
      (image_indices : List Nat)
deriving DecidableEq, Repr

/-- The result of one `App::render` call: the returned `Result`, the app
state after the call, and the trace of device commands issued, in order. -/
structure RenderOutcome where
  result : Except VkErrorCode Unit
  state : RenderData
  trace : List Action
deriving DecidableEq, Repr

/-- The tail of `App::render` from source line 128 on: record the current
slot's fence as owner of `image_index` in `images_in_flight`, build the
submit info (wait on the slot's `image_available` semaphore at
color-attachment-output, run the image's command buffer, signal the slot's
`render_finished` semaphore), reset the slot's fence, submit on the
graphics queue with the slot's fence, then present on the present queue
waiting on `render_finished`; on success increment `frame` modulo
`MAX_FRAMES_IN_FLIGHT` (source line 164). -/
def renderAfterImageWait (s : RenderData) (o : RenderOracle) (image_index : Nat)
    (t : List Action) : RenderOutcome :=
  let slot_fence := s.in_flight_fences.getD s.frame 0
  let s1 := { s with images_in_flight := s.images_in_flight.set image_index (some slot_fence) }
  let wait_semaphores := [s.image_available_semaphores.getD s.frame 0]
  let command_buffers := [s.command_buffers.getD image_index 0]
  let signal_semaphores := [s.render_finished_semaphores.getD s.frame 0]
  let t1 := t ++ [Action.resetFences [slot_fence]]
  match o.reset_fence with
  | .error e => ⟨.error e, s1, t1⟩
  | .ok _ =>
    let t2 := t1 ++ [Action.queueSubmit s.graphics_queue wait_semaphores
      command_buffers signal_semaphores slot_fence]
    match o.submit with
    | .error e => ⟨.error e, s1, t2⟩
    | .ok _ =>
      let t3 := t2 ++ [Action.queuePresent s.present_queue signal_semaphores
        [s.swapchain] [image_index]]
      match o.present with
      | .error e => ⟨.error e, s1, t3⟩
      | .ok _ => ⟨.ok (), { s1 with frame := (s1.frame + 1) % MAX_FRAMES_IN_FLIGHT }, t3⟩

/-- `App::render` (source lines 101–167): wait on the current slot's
in-flight fence, acquire the next swapchain image (signaling the slot's
`image_available` semaphore), wait on `images_in_flight[image_index]` if
it is non-null, then hand off to the submit/present tail.  Every `?` in
the source becomes an early return carrying the error, with the state as
mutated so far. -/
def render (s : RenderData) (o : RenderOracle) : RenderOutcome :=
  let slot_fence := s.in_flight_fences.getD s.frame 0
  let t0 := [Action.waitFences [slot_fence]]
  match o.wait_slot_fence with
  | .error e => ⟨.error e, s, t0⟩
  | .ok _ =>
    let t1 := t0 ++ [Action.acquireNextImage s.swapchain
      (s.image_available_semaphores.getD s.frame 0)]
    match o.acquire with
    | .error e => ⟨.error e, s, t1⟩
    | .ok res =>
      let image_index := res.1
      match s.images_in_flight.getD image_index none with
      | some prior_fence =>
        let t2 := t1 ++ [Action.waitFences [prior_fence]]
        match o.wait_image_fence with
        | .error e => ⟨.error e, s, t2⟩
        | .ok _ => renderAfterImageWait s o image_index t2
      | none => renderAfterImageWait s o image_index t1

/-- What the event loop does on `RedrawRequested` (source line 1173):
`app.render(&window).unwrap()` — an `Err` from `render` panics the
process; there is no recovery path. -/
inductive RedrawOutcome where
  | continued (s : RenderData)
  | panicked (e : VkErrorCode)
deriving DecidableEq, Repr

/-- The `RedrawRequested` arm of the event loop (source lines 1171–1174). -/
def redrawRequested (s : RenderData) (o : RenderOracle) : RedrawOutcome :=
  match render s o with
  | ⟨.ok _, s2, _⟩ => .continued s2
  | ⟨.error e, _, _⟩ => .panicked e

/-- The requested image count computed by `create_swapchain` (source lines
670–679), read off the configuration record. -/
theorem create_swapchain_info_min_image_count (indices : QueueFamilyIndices)
    (support : SwapchainSupport) (w : Extent2D) :
    (create_swapchain_info indices support w).min_image_count =
      if support.capabilities.max_image_count ≠ 0 ∧
          support.capabilities.min_image_count + 1 > support.capabilities.max_image_count then
        support.capabilities.max_image_count
      else
        support.capabilities.min_image_count + 1 := rfl

/-- C4: for every non-empty list of supported present modes, the selector
returns `MAILBOX` if and only if `MAILBOX` is in the list, and returns
`FIFO` otherwise. -/
theorem c4_present_mode_prefers_mailbox (present_modes : List PresentModeKHR)
    (_h : present_modes ≠ []) :
    (get_swapchain_present_mode present_modes = PresentModeKHR.MAILBOX ↔
      PresentModeKHR.MAILBOX ∈ present_modes) ∧
    (PresentModeKHR.MAILBOX ∉ present_modes →
      get_swapchain_present_mode present_modes = PresentModeKHR.FIFO) := by
  unfold get_swapchain_present_mode
  cases hfind : present_modes.find? (fun m => decide (m = PresentModeKHR.MAILBOX)) with
  | none =>
    have hnot : PresentModeKHR.MAILBOX ∉ present_modes := by
      intro hmem
      have hfalse := List.find?_eq_none.mp hfind _ hmem
      simp at hfalse
    refine ⟨⟨fun hfifo => absurd hfifo (by decide), fun hmem => absurd hmem hnot⟩, fun _ => rfl⟩
  | some m =>
    have hm : m = PresentModeKHR.MAILBOX := by
      have hp := List.find?_some hfind
      simpa using hp
    have hmem : PresentModeKHR.MAILBOX ∈ present_modes :=
      hm ▸ List.mem_of_find?_eq_some hfind
    subst hm
    exact ⟨⟨fun _ => hmem, fun _ => rfl⟩, fun hnot => absurd hmem hnot⟩

/-- Concrete instantiation of `c4_present_mode_prefers_mailbox`. -/
theorem c4_present_mode_prefers_mailbox_witness :
    ([PresentModeKHR.FIFO, PresentModeKHR.MAILBOX] ≠ ([] : List PresentModeKHR)) ∧
    (get_swapchain_present_mode [PresentModeKHR.FIFO, PresentModeKHR.MAILBOX] =
        PresentModeKHR.MAILBOX ↔
      PresentModeKHR.MAILBOX ∈ [PresentModeKHR.FIFO, PresentModeKHR.MAILBOX]) :=
  ⟨by decide,
    (c4_present_mode_prefers_mailbox [PresentModeKHR.FIFO, PresentModeKHR.MAILBOX]
      (by decide)).1⟩

/-- C5: for every non-empty format list, the selector returns the pair
`{B8G8R8A8_SRGB, SRGB_NONLINEAR}` whenever some entry equals it, and the
first entry otherwise. -/
theorem c5_surface_format_prefers_bgra_srgb (formats : List SurfaceFormatKHR)
    (h : formats ≠ []) :
    ((⟨Format.B8G8R8A8_SRGB, ColorSpaceKHR.SRGB_NONLINEAR⟩ : SurfaceFormatKHR) ∈ formats →
      get_swapchain_surface_format formats =
        ⟨Format.B8G8R8A8_SRGB, ColorSpaceKHR.SRGB_NONLINEAR⟩) ∧
    ((⟨Format.B8G8R8A8_SRGB, ColorSpaceKHR.SRGB_NONLINEAR⟩ : SurfaceFormatKHR) ∉ formats →
      get_swapchain_surface_format formats = formats.head h) := by
  unfold get_swapchain_surface_format
  cases hfind : formats.find? (fun f =>
      decide (f.format = Format.B8G8R8A8_SRGB ∧
        f.color_space = ColorSpaceKHR.SRGB_NONLINEAR)) with
  | none =>
    have hnot :
        (⟨Format.B8G8R8A8_SRGB, ColorSpaceKHR.SRGB_NONLINEAR⟩ : SurfaceFormatKHR) ∉ formats := by
      intro hmem
      have hfalse := List.find?_eq_none.mp hfind _ hmem
      simp at hfalse
    refine ⟨fun hmem => absurd hmem hnot, fun _ => ?_⟩
    cases formats with
    | nil => exact absurd rfl h
    | cons a as => rfl
  | some f =>
    have hf : f = ⟨Format.B8G8R8A8_SRGB, ColorSpaceKHR.SRGB_NONLINEAR⟩ := by
      have hp := List.find?_some hfind
      simp at hp
      cases f
      simp_all
    have hmem :
        (⟨Format.B8G8R8A8_SRGB, ColorSpaceKHR.SRGB_NONLINEAR⟩ : SurfaceFormatKHR) ∈ formats :=
      hf ▸ List.mem_of_find?_eq_some hfind
    subst hf
    exact ⟨fun _ => rfl, fun hnot => absurd hmem hnot⟩

/-- Concrete instantiation of `c5_surface_format_prefers_bgra_srgb`: the
preferred pair is chosen even when it is not the first entry. -/
theorem c5_surface_format_prefers_bgra_srgb_witness :
    ([(⟨⟨44⟩, ⟨0⟩⟩ : SurfaceFormatKHR), ⟨Format.B8G8R8A8_SRGB, ColorSpaceKHR.SRGB_NONLINEAR⟩] ≠
      ([] : List SurfaceFormatKHR)) ∧
    ((⟨Format.B8G8R8A8_SRGB, ColorSpaceKHR.SRGB_NONLINEAR⟩ : SurfaceFormatKHR) ∈
        [(⟨⟨44⟩, ⟨0⟩⟩ : SurfaceFormatKHR), ⟨Format.B8G8R8A8_SRGB, ColorSpaceKHR.SRGB_NONLINEAR⟩] →
      get_swapchain_surface_format
          [(⟨⟨44⟩, ⟨0⟩⟩ : SurfaceFormatKHR), ⟨Format.B8G8R8A8_SRGB, ColorSpaceKHR.SRGB_NONLINEAR⟩] =
        ⟨Format.B8G8R8A8_SRGB, ColorSpaceKHR.SRGB_NONLINEAR⟩) :=
  ⟨by decide,
    (c5_surface_format_prefers_bgra_srgb
      [(⟨⟨44⟩, ⟨0⟩⟩ : SurfaceFormatKHR), ⟨Format.B8G8R8A8_SRGB, ColorSpaceKHR.SRGB_NONLINEAR⟩]
      (by decide)).1⟩

/-- C6 counterexample: a capabilities record whose `current_extent` is NOT
the undefined sentinel pair `(0xFFFFFFFF, 0xFFFFFFFF)` — only its width is
`0xFFFFFFFF` — is still sent to the clamping branch, so the selector does
not return `current_extent` verbatim, contrary to the claim. -/
theorem c6_counterexample :
    (SurfaceCapabilitiesKHR.mk 2 3 ⟨U32_MAX, 100⟩ ⟨1, 1⟩ ⟨4096, 4096⟩).current_extent ≠
      (⟨U32_MAX, U32_MAX⟩ : Extent2D) ∧
    get_swapchain_extent ⟨1920, 1080⟩
        (SurfaceCapabilitiesKHR.mk 2 3 ⟨U32_MAX, 100⟩ ⟨1, 1⟩ ⟨4096, 4096⟩) = ⟨1920, 1080⟩ ∧
    get_swapchain_extent ⟨1920, 1080⟩
        (SurfaceCapabilitiesKHR.mk 2 3 ⟨U32_MAX, 100⟩ ⟨1, 1⟩ ⟨4096, 4096⟩) ≠
      (SurfaceCapabilitiesKHR.mk 2 3 ⟨U32_MAX, 100⟩ ⟨1, 1⟩ ⟨4096, 4096⟩).current_extent := by
  decide

/-- C6 (amended): the extent selector returns `current_extent` verbatim
exactly when `current_extent.width` is not the `0xFFFFFFFF` sentinel (only
the width is tested); otherwise it returns the window's physical size with
each component clamped into `[min_image_extent, max_image_extent]`. -/
theorem c6_extent_selector (w : Extent2D) (caps : SurfaceCapabilitiesKHR) :
    (caps.current_extent.width ≠ U32_MAX →
      get_swapchain_extent w caps = caps.current_extent) ∧
    (caps.current_extent.width = U32_MAX →
      get_swapchain_extent w caps =
        ⟨clampU32 w.width caps.min_image_extent.width caps.max_image_extent.width,
          clampU32 w.height caps.min_image_extent.height caps.max_image_extent.height⟩) := by
  unfold get_swapchain_extent
  constructor <;> intro h <;> simp [h]

/-- Concrete instantiation of `c6_extent_selector`: with the full sentinel
`current_extent`, window `(1920,1080)`, min `(1,1)`, max `(4096,4096)`,
the selected extent is exactly `(1920,1080)`. -/
theorem c6_extent_selector_witness :
    (SurfaceCapabilitiesKHR.mk 2 0 ⟨U32_MAX, U32_MAX⟩ ⟨1, 1⟩ ⟨4096, 4096⟩).current_extent.width =
      U32_MAX ∧
    get_swapchain_extent ⟨1920, 1080⟩
        (SurfaceCapabilitiesKHR.mk 2 0 ⟨U32_MAX, U32_MAX⟩ ⟨1, 1⟩ ⟨4096, 4096⟩) = ⟨1920, 1080⟩ :=
  ⟨rfl,
    ((c6_extent_selector ⟨1920, 1080⟩
        (SurfaceCapabilitiesKHR.mk 2 0 ⟨U32_MAX, U32_MAX⟩ ⟨1, 1⟩ ⟨4096, 4096⟩)).2 rfl).trans
      (by decide)⟩

/-- C7: the requested swapchain image count is `min_image_count + 1`,
reduced to `max_image_count` when that is nonzero and exceeded, and left
unclamped when `max_image_count` is `0` (unbounded) or large enough. -/
theorem c7_swapchain_image_count (indices : QueueFamilyIndices) (support : SwapchainSupport)
    (w : Extent2D) :
    (support.capabilities.max_image_count = 0 →
      (create_swapchain_info indices support w).min_image_count =
        support.capabilities.min_image_count + 1) ∧
    (support.capabilities.max_image_count ≠ 0 →
      support.capabilities.min_image_count + 1 > support.capabilities.max_image_count →
      (create_swapchain_info indices support w).min_image_count =
        support.capabilities.max_image_count) ∧
    (support.capabilities.min_image_count + 1 ≤ support.capabilities.max_image_count →
      (create_swapchain_info indices support w).min_image_count =
        support.capabilities.min_image_count + 1) := by
  rw [create_swapchain_info_min_image_count]
  refine ⟨fun h0 => ?_, fun hne hgt => ?_, fun hle => ?_⟩
  · rw [if_neg]
    intro hc
    exact hc.1 h0
  · rw [if_pos ⟨hne, hgt⟩]
  · rw [if_neg]
    intro hc
    omega

/-- Concrete instantiation of `c7_swapchain_image_count`: with
`min_image_count = 2` and `max_image_count = 3` the requested count is
`3`; with `max_image_count = 0` it is the unclamped `3`. -/
theorem c7_swapchain_image_count_witness :
    ((2 : Nat) + 1 ≤ 3 ∧
      (create_swapchain_info ⟨0, 0⟩ ⟨⟨2, 3, ⟨800, 600⟩, ⟨1, 1⟩, ⟨4096, 4096⟩⟩, [], []⟩
        ⟨800, 600⟩).min_image_count = 2 + 1) ∧
    ((0 : Nat) = 0 ∧
      (create_swapchain_info ⟨0, 0⟩ ⟨⟨2, 0, ⟨800, 600⟩, ⟨1, 1⟩, ⟨4096, 4096⟩⟩, [], []⟩
        ⟨800, 600⟩).min_image_count = 2 + 1) :=
  ⟨⟨by decide,
      (c7_swapchain_image_count ⟨0, 0⟩ ⟨⟨2, 3, ⟨800, 600⟩, ⟨1, 1⟩, ⟨4096, 4096⟩⟩, [], []⟩
        ⟨800, 600⟩).2.2 (by decide)⟩,
    ⟨rfl,
      (c7_swapchain_image_count ⟨0, 0⟩ ⟨⟨2, 0, ⟨800, 600⟩, ⟨1, 1⟩, ⟨4096, 4096⟩⟩, [], []⟩
        ⟨800, 600⟩).1 rfl⟩⟩

/-- C8: `create_sync_objects` creates exactly `MAX_FRAMES_IN_FLIGHT`
image-available/render-finished semaphore pairs and as many in-flight
fences, every fence created with the `SIGNALED` flag, and fills
`images_in_flight` with one null-fence entry per swapchain image. -/
theorem c8_sync_objects (swapchain_image_count : Nat) :
    (create_sync_objects swapchain_image_count).image_available_semaphores.length =
      MAX_FRAMES_IN_FLIGHT ∧
    (create_sync_objects swapchain_image_count).render_finished_semaphores.length =
      MAX_FRAMES_IN_FLIGHT ∧
    (create_sync_objects swapchain_image_count).in_flight_fences.length =
      MAX_FRAMES_IN_FLIGHT ∧
    (create_sync_objects swapchain_image_count).in_flight_fences.all
      (fun f => f.createdSignaled) = true ∧
    (create_sync_objects swapchain_image_count).images_in_flight =
      List.replicate swapchain_image_count none := by
  refine ⟨rfl, rfl, rfl, rfl, ?_⟩
  show (List.replicate swapchain_image_count ()).map (fun _ => none) =
    List.replicate swapchain_image_count none
  rw [List.map_const']
  rw [List.length_replicate]

/-- C9: in `create_logical_device`, both queue handles are retrieved from
the graphics queue family; even when `QueueFamilyIndices::get` computed a
distinct present family, the stored present queue is the graphics family's
queue, not the present-capable family's. -/
theorem c9_present_queue_uses_graphics_family (indices : QueueFamilyIndices) :
    (create_logical_device_queues indices).1 = get_device_queue indices.graphics 0 ∧
    (create_logical_device_queues indices).2 = get_device_queue indices.graphics 0 ∧
    (indices.graphics ≠ indices.present →
      (create_logical_device_queues indices).2 ≠ get_device_queue indices.present 0) := by
  refine ⟨rfl, rfl, fun hne heq => ?_⟩
  exact hne (congrArg Queue.family heq)

/-- Concrete instantiation of `c9_present_queue_uses_graphics_family` with
distinct graphics and present family indices. -/
theorem c9_present_queue_uses_graphics_family_witness :
    ((0 : Nat) ≠ 1) ∧
    (create_logical_device_queues ⟨0, 1⟩).2 ≠ get_device_queue 1 0 :=
  ⟨by decide, (c9_present_queue_uses_graphics_family ⟨0, 1⟩).2.2 (by decide)⟩

theorem getD_set_lt {α : Type} {l : List (Option α)} {i : Nat} {v : Option α}
    (h : i < l.length) : (l.set i v).getD i none = v := by
  simp [List.getD_eq_getElem?_getD, List.getElem?_set_self h]

/-- A sample app state with three swapchain images, image index 1 already
owned by fence `7`, and two frame slots. -/
def sampleState : RenderData where
  frame := 0
  in_flight_fences := [11, 12]
  image_available_semaphores := [21, 22]
  render_finished_semaphores := [31, 32]
  images_in_flight := [none, some 7, none]
  command_buffers := [41, 42, 43]
  swapchain := 1
  graphics_queue := 2
  present_queue := 3

/-- An oracle on which every device call succeeds and acquire hands back
image index 1. -/
def okOracle : RenderOracle where
  wait_slot_fence := .ok ()
  acquire := .ok (1, .success)
  wait_image_fence := .ok ()
  reset_fence := .ok ()
  submit := .ok ()
  present := .ok .success

/-- An oracle on which acquiring the next swapchain image reports
`ERROR_OUT_OF_DATE_KHR`. -/
def outOfDateOracle : RenderOracle :=
  { okOracle with acquire := .error .outOfDateKhr }

/-- C1: when the acquired image index `i` is already owned by a fence `f`
recorded in `images_in_flight`, `render` issues a wait on `f` as its third
device command — before any submit or present — and afterwards
`images_in_flight[i]` holds the current slot's in-flight fence. -/
theorem c1_waits_on_prior_image_fence (s : RenderData) (o : RenderOracle) (i : Nat)
    (sc : VkSuccessCode) (f : Nat)
    (h1 : o.wait_slot_fence = Except.ok ())
    (h2 : o.acquire = Except.ok (i, sc))
    (h3 : s.images_in_flight.getD i none = some f)
    (h4 : o.wait_image_fence = Except.ok ())
    (h5 : i < s.images_in_flight.length) :
    (render s o).trace.take 3 =
      [Action.waitFences [s.in_flight_fences.getD s.frame 0],
        Action.acquireNextImage s.swapchain (s.image_available_semaphores.getD s.frame 0),
        Action.waitFences [f]] ∧
    (render s o).state.images_in_flight.getD i none =
      some (s.in_flight_fences.getD s.frame 0) := by
  simp only [List.getD_eq_getElem?_getD] at h3
  cases hrst : o.reset_fence <;> cases hsub : o.submit <;> cases hprs : o.present <;>
    exact ⟨by simp [render, renderAfterImageWait, h1, h2, h3, h4, hrst, hsub, hprs],
      by simp [render, renderAfterImageWait, h1, h2, h3, h4, hrst, hsub, hprs,
        List.getElem?_set_self h5]⟩

/-- Concrete instantiation of `c1_waits_on_prior_image_fence`: image 1 is
owned by fence `7`; the wait on `7` precedes submit/present and slot 0's
fence `11` becomes the new owner. -/
theorem c1_waits_on_prior_image_fence_witness :
    sampleState.images_in_flight.getD 1 none = some 7 ∧
    1 < sampleState.images_in_flight.length ∧
    (render sampleState okOracle).trace.take 3 =
      [Action.waitFences [11], Action.acquireNextImage 1 21, Action.waitFences [7]] ∧
    (render sampleState okOracle).state.images_in_flight.getD 1 none = some 11 :=
  ⟨rfl, by decide,
    (c1_waits_on_prior_image_fence sampleState okOracle 1 .success 7
      rfl rfl rfl rfl (by decide)).1,
    (c1_waits_on_prior_image_fence sampleState okOracle 1 .success 7
      rfl rfl rfl rfl (by decide)).2⟩

/-- C2 counterexample: when acquire reports out of date on the concrete
sample state, the frame issues no submit and no present (its device-command
trace is exactly the slot-fence wait and the acquire call) — but no
recreation protocol runs: `render` propagates the error to the event loop,
which `unwrap`s it, so the process panics and no next frame proceeds with
rebuilt resources, contrary to the claim. -/
theorem c2_counterexample :
    (render sampleState outOfDateOracle).trace =
      [Action.waitFences [11], Action.acquireNextImage 1 21] ∧
    redrawRequested sampleState outOfDateOracle =
      RedrawOutcome.panicked VkErrorCode.outOfDateKhr := by
  decide

theorem renderAfterImageWait_oracle_congr (s : RenderData) (o o2 : RenderOracle)
    (i : Nat) (t : List Action)
    (hr : o.reset_fence = o2.reset_fence) (hs : o.submit = o2.submit)
    (hp : o.present = o2.present) :
    renderAfterImageWait s o i t = renderAfterImageWait s o2 i t := by
  unfold renderAfterImageWait
  rw [hr, hs, hp]

/-- C2 (amended): when acquire reports out of date, `render` aborts the
frame with no submit or present call and an unchanged state, propagating
the error; the event loop unwraps it and panics (the program has no
swapchain recreation protocol).  A suboptimal acquire result instead lets
the frame proceed exactly as a success result does. -/
theorem c2_acquire_out_of_date_aborts (s : RenderData) (o : RenderOracle) (i : Nat)
    (h1 : o.wait_slot_fence = Except.ok ())
    (h2 : o.acquire = Except.error VkErrorCode.outOfDateKhr) :
    (render s o).result = Except.error VkErrorCode.outOfDateKhr ∧
    (render s o).state = s ∧
    (render s o).trace =
      [Action.waitFences [s.in_flight_fences.getD s.frame 0],
        Action.acquireNextImage s.swapchain (s.image_available_semaphores.getD s.frame 0)] ∧
    redrawRequested s o = RedrawOutcome.panicked VkErrorCode.outOfDateKhr ∧
    render s { o with acquire := Except.ok (i, VkSuccessCode.suboptimalKhr) } =
      render s { o with acquire := Except.ok (i, VkSuccessCode.success) } := by
  refine ⟨?_, ?_, ?_, ?_, ?_⟩
  · simp [render, h1, h2]
  · simp [render, h1, h2]
  · simp [render, h1, h2]
  · simp [render, redrawRequested, h1, h2]
  · cases him : s.images_in_flight[i]?.getD none with
    | none =>
      simp only [render, List.getD_eq_getElem?_getD, h1, him]
      exact renderAfterImageWait_oracle_congr s _ _ i _ rfl rfl rfl
    | some pf =>
      cases h3 : o.wait_image_fence with
      | error e =>
        simp only [render, List.getD_eq_getElem?_getD, h1, him, h3]
      | ok u =>
        simp only [render, List.getD_eq_getElem?_getD, h1, him, h3]
        exact renderAfterImageWait_oracle_congr s _ _ i _ rfl rfl rfl

/-- Concrete instantiation of `c2_acquire_out_of_date_aborts`. -/
theorem c2_acquire_out_of_date_aborts_witness :
    outOfDateOracle.acquire = Except.error VkErrorCode.outOfDateKhr ∧
    (render sampleState outOfDateOracle).result =
      Except.error VkErrorCode.outOfDateKhr ∧
    redrawRequested sampleState outOfDateOracle =
      RedrawOutcome.panicked VkErrorCode.outOfDateKhr :=
  ⟨rfl,
    (c2_acquire_out_of_date_aborts sampleState outOfDateOracle 1 rfl rfl).1,
    (c2_acquire_out_of_date_aborts sampleState outOfDateOracle 1 rfl rfl).2.2.2.1⟩

/-- C3: with `MAX_FRAMES_IN_FLIGHT = 2`, on a fully successful pass for
logical frame number `f` (so the stored counter is `f mod 2`), every
per-slot resource `render` uses — the waited fence, the acquire semaphore,
the submit wait/signal semaphores and fence, and the present wait
semaphore — comes from slot `f mod MAX_FRAMES_IN_FLIGHT`, and the frame
counter advances to `(f + 1) mod MAX_FRAMES_IN_FLIGHT`. -/
theorem c3_slot_is_frame_mod_and_advances (s : RenderData) (o : RenderOracle)
    (f i : Nat) (sc sc2 : VkSuccessCode)
    (hf : s.frame = f % MAX_FRAMES_IN_FLIGHT)
    (h1 : o.wait_slot_fence = Except.ok ())
    (h2 : o.acquire = Except.ok (i, sc))
    (h4 : o.wait_image_fence = Except.ok ())
    (h5 : o.reset_fence = Except.ok ())
    (h6 : o.submit = Except.ok ())
    (h7 : o.present = Except.ok sc2) :
    MAX_FRAMES_IN_FLIGHT = 2 ∧
    (render s o).result = Except.ok () ∧
    (render s o).state.frame = (f + 1) % MAX_FRAMES_IN_FLIGHT ∧
    (render s o).trace.head? =
      some (Action.waitFences [s.in_flight_fences.getD (f % MAX_FRAMES_IN_FLIGHT) 0]) ∧
    Action.acquireNextImage s.swapchain
        (s.image_available_semaphores.getD (f % MAX_FRAMES_IN_FLIGHT) 0) ∈
      (render s o).trace ∧
    Action.queueSubmit s.graphics_queue
        [s.image_available_semaphores.getD (f % MAX_FRAMES_IN_FLIGHT) 0]
        [s.command_buffers.getD i 0]
        [s.render_finished_semaphores.getD (f % MAX_FRAMES_IN_FLIGHT) 0]
        (s.in_flight_fences.getD (f % MAX_FRAMES_IN_FLIGHT) 0) ∈
      (render s o).trace ∧
    Action.queuePresent s.present_queue
        [s.render_finished_semaphores.getD (f % MAX_FRAMES_IN_FLIGHT) 0]
        [s.swapchain] [i] ∈
      (render s o).trace := by
  rw [← hf]
  cases him : s.images_in_flight[i]?.getD none <;>
    refine ⟨rfl, ?_, ?_, ?_, ?_, ?_, ?_⟩ <;>
      simp [render, renderAfterImageWait, h1, h2, h4, h5, h6, h7, him] <;>
      rw [hf, Nat.mod_add_mod]

/-- Concrete instantiation of `c3_slot_is_frame_mod_and_advances` at
logical frame `4` (slot `0`). -/
theorem c3_slot_is_frame_mod_and_advances_witness :
    sampleState.frame = 4 % MAX_FRAMES_IN_FLIGHT ∧
    (render sampleState okOracle).result = Except.ok () ∧
    (render sampleState okOracle).state.frame = (4 + 1) % MAX_FRAMES_IN_FLIGHT :=
  ⟨by decide,
    (c3_slot_is_frame_mod_and_advances sampleState okOracle 4 1 .success .success
      (by decide) rfl rfl rfl rfl rfl rfl).2.1,
    (c3_slot_is_frame_mod_and_advances sampleState okOracle 4 1 .success .success
      (by decide) rfl rfl rfl rfl rfl rfl).2.2.1⟩

theorem renderAfterImageWait_frame_characterization (s : RenderData) (o : RenderOracle)
    (image_index : Nat) (t : List Action) :
    ((renderAfterImageWait s o image_index t).result = Except.ok () ∧
      (renderAfterImageWait s o image_index t).state.frame =
        (s.frame + 1) % MAX_FRAMES_IN_FLIGHT) ∨
    ((renderAfterImageWait s o image_index t).result ≠ Except.ok () ∧
      (renderAfterImageWait s o image_index t).state.frame = s.frame) := by
  cases hrst : o.reset_fence <;> cases hsub : o.submit <;> cases hprs : o.present <;>
    simp [renderAfterImageWait, hrst, hsub, hprs]

theorem render_frame_characterization (s : RenderData) (o : RenderOracle) :
    ((render s o).result = Except.ok () ∧
      (render s o).state.frame = (s.frame + 1) % MAX_FRAMES_IN_FLIGHT) ∨
    ((render s o).result ≠ Except.ok () ∧ (render s o).state.frame = s.frame) := by
  cases h1 : o.wait_slot_fence with
  | error e =>
    right
    simp [render, h1]
  | ok u =>
    cases h2 : o.acquire with
    | error e =>
      right
      simp [render, h1, h2]
    | ok p =>
      obtain ⟨i, sc⟩ := p
      cases him : s.images_in_flight[i]?.getD none with
      | none =>
        simp only [render, List.getD_eq_getElem?_getD, h1, h2, him]
        exact renderAfterImageWait_frame_characterization s o i _
      | some pf =>
        cases h3 : o.wait_image_fence with
        | error e =>
          right
          simp [render, h1, h2, him, h3]
        | ok u2 =>
          simp only [render, List.getD_eq_getElem?_getD, h1, h2, him, h3]
          exact renderAfterImageWait_frame_characterization s o i _

/-- C10: the frame counter is left unchanged whenever `render` returns an
error at any step, and is advanced by one modulo `MAX_FRAMES_IN_FLIGHT`
exactly on a fully successful pass. -/
theorem c10_frame_counter_only_advances_on_success (s : RenderData) (o : RenderOracle) :
    (∀ e, (render s o).result = Except.error e → (render s o).state.frame = s.frame) ∧
    ((render s o).result = Except.ok () →
      (render s o).state.frame = (s.frame + 1) % MAX_FRAMES_IN_FLIGHT) := by
  rcases render_frame_characterization s o with ⟨hok, hfr⟩ | ⟨hne, hfr⟩
  · refine ⟨fun e he => ?_, fun _ => hfr⟩
    rw [he] at hok
    exact Except.noConfusion hok
  · exact ⟨fun e _ => hfr, fun hok => absurd hok hne⟩

/-- Concrete instantiation of `c10_frame_counter_only_advances_on_success`:
an out-of-date acquire error leaves the counter at `0`. -/
theorem c10_frame_counter_only_advances_on_success_witness :
    (render sampleState outOfDateOracle).result =
      Except.error VkErrorCode.outOfDateKhr ∧
    (render sampleState outOfDateOracle).state.frame = sampleState.frame :=
  ⟨by decide,
    (c10_frame_counter_only_advances_on_success sampleState outOfDateOracle).1
      VkErrorCode.outOfDateKhr (by decide)⟩

end VkTut
